import Mathlib

/-!
Shallow embedding of `scripts/inject_module_names.py`, a git commit-msg hook
that rewrites the first line of a commit message to list the changed modules.

Strings are modelled by Lean `String` (a wrapper around `List Char`); the
Python string operations used by the script (`str.split`, `str.join`,
`str.splitlines`, f-string concatenation) are given executable, structurally
recursive models below so that every concrete run can be evaluated inside the
kernel.  Fallible Python code is modelled with an explicit outcome type:
a Python function either returns a value or raises an exception (named by the
exception class).  The two `re` patterns used by the script are small and are
modelled directly as deterministic scanners; the determinism of each pattern
is argued in the doc comment of its model.
-/

/-- Outcome of calling a Python function: it either raises an exception
(identified by its class name) or returns a value. -/
inductive PyOutcome (α : Type) where
  | raises (exc : String)
  | returns (val : α)
deriving DecidableEq

/-- ASCII model of the character class matched by the pattern fragment
stemming from Python `\w` (word character): letters, digits, underscore. -/
def isWordChar (c : Char) : Bool := c.isAlphanum || c = '_'

/-- Model of Python `\s` (whitespace): space, tab, newline, carriage return,
vertical tab, form feed. -/
def isSpaceCh (c : Char) : Bool :=
  c = ' ' || c = '\t' || c = '\n' || c = '\r' || c = '\x0b' || c = '\x0c'

/-- The explicit character class `[a-zA-Z0-9,_ -]` of the commit-template
pattern: letters, digits, comma, underscore, space, hyphen. -/
def isModCh (c : Char) : Bool :=
  c.isAlphanum || c = ',' || c = '_' || c = ' ' || c = '-'

/-- The branch-name pattern delimiters `[_-]`. -/
def isDelim (c : Char) : Bool := c = '_' || c = '-'

/-- Fuel-driven splitter implementing Python `str.split(sep)` for a non-empty
separator `s0 :: srest`: scan left to right, cut at every non-overlapping
occurrence of the separator.  `fuel` bounds the recursion; callers pass the
length of the scanned list, which suffices because each step consumes at
least one character. -/
def splitAuxF (s0 : Char) (srest : List Char) :
    Nat → List Char → List Char → List (List Char)
  | _, [], acc => [acc.reverse]
  | 0, l, acc => [acc.reverse ++ l]
  | fuel + 1, c :: rest, acc =>
    if (s0 :: srest).isPrefixOf (c :: rest) then
      acc.reverse :: splitAuxF s0 srest fuel ((c :: rest).drop (srest.length + 1)) []
    else
      splitAuxF s0 srest fuel rest (c :: acc)

/-- Python `s.split(sep)`.  Python raises `ValueError` on an empty separator;
every theorem below that quantifies over the separator therefore carries the
hypothesis `sep` is non-empty, and the empty-separator value here is never
relied upon. -/
def pySplit (sep s : String) : List String :=
  match sep.data with
  | [] => [s]
  | c :: cs => (splitAuxF c cs s.data.length s.data []).map (fun l => String.mk l)

/-- Python `sep.join(parts)`. -/
def joinSep (sep : String) : List String → String
  | [] => ""
  | [x] => x
  | x :: xs => x ++ sep ++ joinSep sep xs

/-- Python `s.splitlines()` for line-feed separated content (the script only
ever feeds it the commit-message file): empty string gives no lines, and a
trailing newline does not produce a final empty line. -/
def splitlinesPy (s : String) : List String :=
  if s.data = [] then []
  else if s.data.getLast? = some '\n' then (pySplit "\n" s).dropLast
  else pySplit "\n" s

/-- Named groups produced by a successful match of the commit-template
pattern `^\[(?P<type>\w+)\]\s*(?P<task_id>\[\d+\])\]?\s*(?:[a-zA-Z0-9,_ -]*:)?(?P<msg>.*)`.
The `task_id` group keeps its surrounding brackets, exactly as `re` reports it. -/
structure ReGroups where
  type : String
  task_id : String
  msg : String
deriving DecidableEq

/-- Model of `re.search` with the commit-template pattern (line 60 of the
script).  The pattern is anchored by `^` (no `MULTILINE` flag), so only a
match starting at position 0 is possible.  Each quantified fragment is
deterministic: `\w+`, `\d+` and `\s*` consume maximal runs because their
character sets exclude the bracket that must follow, and the optional group
`(?:[a-zA-Z0-9,_ -]*:)?` matches exactly when the character after the maximal
class run is a colon, because the colon is not in the class.  `.` does not
match a newline, so `msg` stops at the first newline. -/
def matchCommitTemplate (s : String) : Option ReGroups :=
  match s.data with
  | '[' :: r1 =>
    let w := r1.takeWhile isWordChar
    if w.isEmpty then none
    else
      match r1.drop w.length with
      | ']' :: r2 =>
        match r2.dropWhile isSpaceCh with
        | '[' :: r4 =>
          let ds := r4.takeWhile Char.isDigit
          if ds.isEmpty then none
          else
            match r4.drop ds.length with
            | ']' :: r6 =>
              let r7 := match r6 with
                | ']' :: r => r
                | r => r
              let r8 := r7.dropWhile isSpaceCh
              let run := r8.takeWhile isModCh
              let r10 := match r8.drop run.length with
                | ':' :: r => r
                | _ => r8
              some ⟨String.mk w, "[" ++ String.mk ds ++ "]",
                    String.mk (r10.takeWhile (fun c => c ≠ '\n'))⟩
            | _ => none
        | _ => none
      | _ => none
  | _ => none

/-- One attempt of the branch pattern `([_-](\d+)[_-])` at a fixed position:
a delimiter, a maximal non-empty digit run (maximal suffices: a shorter run
would have to be followed by a digit, which is not a delimiter), and another
delimiter.  Returns group 1, which includes both delimiters. -/
def matchDelimNumAt (c : Char) (rest : List Char) : Option String :=
  if isDelim c then
    let ds := rest.takeWhile Char.isDigit
    match ds, rest.drop ds.length with
    | [], _ => none
    | _ :: _, [] => none
    | _ :: _, d :: _ =>
      if isDelim d then some (String.mk (c :: (ds ++ [d]))) else none
  else none

/-- Leftmost search for the branch pattern, one start position at a time,
exactly as `re.search` scans. -/
def findDelimNum : List Char → Option String
  | [] => none
  | c :: rest =>
    match matchDelimNumAt c rest with
    | some s => some s
    | none => findDelimNum rest

/-- Model of `get_task_id_from_branch` (lines 36-45): `re.search` of
`([_-](\d+)[_-])` over the branch name, returning `res.group(1)` — the whole
first group, delimiters included — or the empty string when there is no
match. -/
def get_task_id_from_branch (branch : String) : String :=
  (findDelimNum branch.data).getD ""

/-- The dictionary the script intends `parse_commit_msg` to return. -/
structure ParsedMsg where
  type : String
  task_id : String
  msg : String
deriving DecidableEq

/-- Model of `parse_commit_msg` (lines 47-73).  After a successful pattern
match the code runs `res = res.groupdict()` and then, because the matched
`task_id` group `[digits]` is a non-empty string, executes
`res.task_id.strip("[] ")` — attribute access on a plain `dict`, which raises
`AttributeError`.  On the (unreachable, since the pattern demands a digit)
empty-tag path the code would fall back to the branch name and, when that
yields a task id, crash at the final `return res.groupdict()`, again an
`AttributeError` on a `dict`.  When the pattern does not match the function
returns `None`. -/
def parse_commit_msg (branch : String) (commit_msg : String) :
    PyOutcome (Option ParsedMsg) :=
  match matchCommitTemplate commit_msg with
  | none => PyOutcome.returns none
  | some g =>
    if g.task_id ≠ "" then
      PyOutcome.raises "AttributeError"
    else if get_task_id_from_branch branch = "" then
      PyOutcome.returns none
    else
      PyOutcome.raises "AttributeError"

/-- List concatenation of the images of `f`, the shape in which the script
accumulates its `grouped_modules` list (`extend`/`append` in a loop). -/
def flatMapL (f : α → List β) : List α → List β
  | [] => []
  | a :: l => f a ++ flatMapL f l

/-- Append `m` to the bucket of key `k`, or add a fresh bucket at the end:
the behaviour of `defaultdict(list)` under `d[k].append(m)`, with Python's
insertion-ordered dictionary iteration. -/
def insertGrouped : List (String × List String) → String → String →
    List (String × List String)
  | [], k, m => [(k, [m])]
  | (k0, ms0) :: rest, k, m =>
    if k0 = k then (k0, ms0 ++ [m]) :: rest
    else (k0, ms0) :: insertGrouped rest k m

/-- Partition a list by a key function, buckets in first-encounter order and
bucket members in input order, as a Python `defaultdict(list)` fill loop
produces. -/
def pyGroupBy (key : String → String) (l : List String) :
    List (String × List String) :=
  l.foldl (fun acc m => insertGrouped acc (key m) m) []

/-- `module.split(sep)[0]`: the top-level key of `group_modules`. -/
def topKey (sep m : String) : String := (pySplit sep m).headD ""

/-- `sep.join(module.split(sep)[:2])`: the sub-group key of `group_modules`. -/
def subKey (sep m : String) : String := joinSep sep ((pySplit sep m).take 2)

/-- The inner loop body of `group_modules` for one sub-group (lines 119-125):
a singleton sub-group contributes its member, a sub-group of at most three
members contributes `f"{sub_prefix}{sep}{...}"` with the full names
comma-joined inside braces, and a larger sub-group contributes the wildcard
`f"{sub_prefix}{sep}*"`. -/
def subGroupEntry (sep : String) (q : String × List String) : List String :=
  if q.2.length = 1 then q.2
  else if q.2.length ≤ 3 then
    [q.1 ++ sep ++ "\x7b" ++ joinSep "," q.2 ++ "\x7d"]
  else [q.1 ++ sep ++ "*"]

/-- The outer loop body of `group_modules` for one top-level group
(lines 105-125).  Note the 2-3 member branch of the source is the f-string
`f"{prefix}_{{{','.join(modules)}}}"`: the underscore is a literal, not the
`sep` parameter. -/
def topGroupEntry (sep : String) (p : String × List String) : List String :=
  if p.2.length = 1 then p.2
  else if p.2.length ≤ 3 then
    [p.1 ++ "_\x7b" ++ joinSep "," p.2 ++ "\x7d"]
  else
    let subs := pyGroupBy (subKey sep) p.2
    if 3 < subs.length then [p.1 ++ sep ++ "*"]
    else flatMapL (subGroupEntry sep) subs

/-- Model of `group_modules` (lines 76-127).  The source gives `sep` the
default value `"_"`; callers below always pass the separator explicitly. -/
def group_modules (changed_modules : List String) (sep : String) : List String :=
  flatMapL (topGroupEntry sep) (pyGroupBy (topKey sep) changed_modules)

/-- Companion to `subGroupEntry` that records, next to every emitted display
string, the module names it accounts for. -/
def subGroupAnnotated (sep : String) (q : String × List String) :
    List (String × List String) :=
  if q.2.length = 1 then q.2.map (fun m => (m, [m]))
  else if q.2.length ≤ 3 then
    [(q.1 ++ sep ++ "\x7b" ++ joinSep "," q.2 ++ "\x7d", q.2)]
  else [(q.1 ++ sep ++ "*", q.2)]

/-- Companion to `topGroupEntry` with the accounted module names attached. -/
def topGroupAnnotated (sep : String) (p : String × List String) :
    List (String × List String) :=
  if p.2.length = 1 then p.2.map (fun m => (m, [m]))
  else if p.2.length ≤ 3 then
    [(p.1 ++ "_\x7b" ++ joinSep "," p.2 ++ "\x7d", p.2)]
  else
    let subs := pyGroupBy (subKey sep) p.2
    if 3 < subs.length then [(p.1 ++ sep ++ "*", p.2)]
    else flatMapL (subGroupAnnotated sep) subs

/-- `group_modules` output paired with, for every entry, the input module
names that entry accounts for. -/
def gm_annotated (changed_modules : List String) (sep : String) :
    List (String × List String) :=
  flatMapL (topGroupAnnotated sep) (pyGroupBy (topKey sep) changed_modules)

/-- The state of the world outside the script that its git queries observe:
the current branch name and the module directories that
`get_changed_modules()` would compute from the staged files. -/
structure Env where
  branch : String
  changed_modules : List String
deriving DecidableEq

/-- Model of `get_changed_modules` (lines 9-17): a zero-parameter Python
function whose value is determined by the staged git state. -/
def get_changed_modules (env : Env) : List String := env.changed_modules

/-- The call `get_changed_modules(message_head)` on line 141 of `main`:
`get_changed_modules` takes no parameters, so passing `message_head` raises
`TypeError` before any git subprocess runs. -/
def get_changed_modules_call (_env : Env) (_message_head : String) :
    PyOutcome (List String) :=
  PyOutcome.raises "TypeError"

/-- The guard `message_body[:1] != ["\n"]` on line 134: a one-character
string slice compared against a Python list.  A `str` is never equal to a
`list`, so the guard holds for every string and the following
`message_body = "\n" + message_body` always runs. -/
def headSliceNeListNewline (_message_body : String) : Bool := true

/-- `"\n".join(commit_msg_list[1:])` (line 133). -/
def message_body_of (content : String) : String :=
  joinSep "\n" ((splitlinesPy content).drop 1)

/-- Lines 133-135: the body with the (unconditionally taken) leading-newline
prepend. -/
def normalized_body (content : String) : String :=
  let b := message_body_of content
  if headSliceNeListNewline b then "\n" ++ b else b

/-- Line 155: `new_message = f"{new_head}\n{message_body}"`. -/
def rebuilt_message (new_head : String) (content : String) : String :=
  new_head ++ "\n" ++ normalized_body content

/-- Lines 145-154: the subject rebuilt from the parsed fields and the changed
modules — a plain comma-join of the module names when there are at most
three, the comma-join of `group_modules` (at its default separator) above
that. -/
def build_new_head (parsed : ParsedMsg) (changed : List String) : String :=
  if changed.length ≤ 3 then
    "[" ++ parsed.type ++ "][" ++ parsed.task_id ++ "] " ++
      joinSep ", " changed ++ ": " ++ parsed.msg
  else
    "[" ++ parsed.type ++ "][" ++ parsed.task_id ++ "] " ++
      joinSep ", " (group_modules changed "_") ++ ": " ++ parsed.msg

/-- How one invocation of the script ends: an uncaught exception, an explicit
`exit(code)` call, or falling off the end of `main` after writing the file.
Each constructor carries the commit-message file's content at termination;
the only write the script performs is the final `f.write(new_message)`, so
every other path carries the input content unchanged. -/
inductive MainOutcome where
  | raises (exc : String) (file : String)
  | exits (code : Nat) (file : String)
  | completes (file : String)
deriving DecidableEq

/-- Model of `main` (lines 130-157) run against environment `env` with
commit-message file content `content`.  `commit_msg_list[0]` raises
`IndexError` on an empty file; `parse_commit_msg` failure exits 1; an empty
changed-module set exits 0; otherwise the file is rewritten.  (The body
normalization of lines 132-135 is pure and is folded into
`rebuilt_message`.) -/
def main_model (env : Env) (content : String) : MainOutcome :=
  match splitlinesPy content with
  | [] => MainOutcome.raises "IndexError" content
  | message_head :: _ =>
    match parse_commit_msg env.branch message_head with
    | PyOutcome.raises e => MainOutcome.raises e content
    | PyOutcome.returns none => MainOutcome.exits 1 content
    | PyOutcome.returns (some parsed) =>
      match get_changed_modules_call env message_head with
      | PyOutcome.raises e => MainOutcome.raises e content
      | PyOutcome.returns changed =>
        if changed.length = 0 then MainOutcome.exits 0 content
        else MainOutcome.completes (rebuilt_message (build_new_head parsed changed) content)

/-- Does the run end in the `exit(0)` of the no-changed-modules diagnostic
(or a completed rewrite's implicit success, which the script never reaches by
`exit`)?  Only the explicit `exit(0)` branch is recognized here. -/
def isExitZero : MainOutcome → Bool
  | MainOutcome.exits 0 _ => true
  | _ => false

/-- On every early termination (exception or explicit `exit`), the file
content at termination; `none` for a completed run that performed the write. -/
def earlyFile : MainOutcome → Option String
  | MainOutcome.raises _ f => some f
  | MainOutcome.exits _ f => some f
  | MainOutcome.completes _ => none

/-! Helper lemmas about `flatMapL`, the grouping partition, and strings. -/

theorem flatMapL_append (f : α → List β) (l1 l2 : List α) :
    flatMapL f (l1 ++ l2) = flatMapL f l1 ++ flatMapL f l2 := by
  induction l1 with
  | nil => rfl
  | cons a l ih => simp [flatMapL, ih, List.append_assoc]

theorem mem_flatMapL_of (f : α → List β) {p : α} {l : List α} (hp : p ∈ l)
    {b : β} (hb : b ∈ f p) : b ∈ flatMapL f l := by
  induction l with
  | nil => cases hp
  | cons a l ih =>
    rcases List.mem_cons.mp hp with h | h
    · subst h; exact List.mem_append_left _ hb
    · exact List.mem_append_right _ (ih h)

theorem length_flatMapL (f : α → List β) (l : List α) :
    (flatMapL f l).length = (l.map (fun a => (f a).length)).sum := by
  induction l with
  | nil => rfl
  | cons a l ih => simp [flatMapL, ih]

theorem map_flatMapL (g : β → γ) (f : α → List β) (l : List α) :
    (flatMapL f l).map g = flatMapL (fun a => (f a).map g) l := by
  induction l with
  | nil => rfl
  | cons a l ih => simp [flatMapL, ih]

theorem flatMapL_congr {f g : α → List β} {l : List α}
    (h : ∀ a ∈ l, f a = g a) : flatMapL f l = flatMapL g l := by
  induction l with
  | nil => rfl
  | cons a l ih =>
    simp only [flatMapL, h a (List.mem_cons_self a l)]
    rw [ih (fun a ha => h a (List.mem_cons_of_mem _ ha))]

theorem perm_flatMapL {f g : α → List β} {l : List α}
    (h : ∀ a ∈ l, (f a).Perm (g a)) : (flatMapL f l).Perm (flatMapL g l) := by
  induction l with
  | nil => exact List.Perm.refl _
  | cons a l ih =>
    exact (h a (List.mem_cons_self a l)).append
      (ih (fun a ha => h a (List.mem_cons_of_mem _ ha)))

theorem flatMapL_map (f : β → List γ) (g : α → β) (l : List α) :
    flatMapL f (l.map g) = flatMapL (fun a => f (g a)) l := by
  induction l with
  | nil => rfl
  | cons a l ih => simp [flatMapL, ih]

theorem flatMapL_pure (l : List α) : flatMapL (fun a => [a]) l = l := by
  induction l with
  | nil => rfl
  | cons a l ih => simp [flatMapL, ih]

theorem flatMapL_flatMapL (g : β → List γ) (f : α → List β) (l : List α) :
    flatMapL g (flatMapL f l) = flatMapL (fun a => flatMapL g (f a)) l := by
  induction l with
  | nil => rfl
  | cons a l ih => simp [flatMapL, flatMapL_append, ih]

theorem count_flatMapL [DecidableEq β] (b : β) (f : α → List β) (l : List α) :
    (flatMapL f l).count b = (l.map (fun a => (f a).count b)).sum := by
  induction l with
  | nil => rfl
  | cons a l ih => simp [flatMapL, List.count_append, ih]

theorem sum_map_ones (l : List α) : (l.map (fun _ => (1 : Nat))).sum = l.length := by
  induction l with
  | nil => rfl
  | cons a l ih => simp [ih]; omega

theorem map_fst_pair (l : List String) :
    (l.map (fun m => (m, ([m] : List String)))).map Prod.fst = l := by
  induction l with
  | nil => rfl
  | cons a l ih => simp [ih]

theorem insertGrouped_snd_perm (acc : List (String × List String)) (k m : String) :
    (flatMapL Prod.snd (insertGrouped acc k m)).Perm
      (flatMapL Prod.snd acc ++ [m]) := by
  induction acc with
  | nil => simp [insertGrouped, flatMapL]
  | cons q rest ih =>
    obtain ⟨k0, ms0⟩ := q
    by_cases hk : k0 = k
    · simp only [insertGrouped, if_pos hk, flatMapL]
      have h1 : (ms0 ++ [m]) ++ flatMapL Prod.snd rest
          = ms0 ++ ([m] ++ flatMapL Prod.snd rest) := by rw [List.append_assoc]
      rw [h1, List.append_assoc]
      exact List.Perm.append_left ms0 List.perm_append_comm
    · simp only [insertGrouped, if_neg hk, flatMapL]
      rw [List.append_assoc]
      exact List.Perm.append_left ms0 ih

theorem foldl_insertGrouped_snd_perm (key : String → String) (l : List String) :
    ∀ acc, (flatMapL Prod.snd
        (l.foldl (fun a m => insertGrouped a (key m) m) acc)).Perm
      (flatMapL Prod.snd acc ++ l) := by
  induction l with
  | nil => intro acc; simp
  | cons m l ih =>
    intro acc
    have h1 := ih (insertGrouped acc (key m) m)
    have h2 := (insertGrouped_snd_perm acc (key m) m).append_right l
    have h3 := h1.trans h2
    rw [List.append_assoc, List.singleton_append] at h3
    rw [List.foldl_cons]
    exact h3

theorem pyGroupBy_snd_perm (key : String → String) (l : List String) :
    (flatMapL Prod.snd (pyGroupBy key l)).Perm l := by
  have h := foldl_insertGrouped_snd_perm key l []
  simpa [pyGroupBy, flatMapL] using h

theorem subGroupAnnotated_fst (sep : String) (q : String × List String) :
    (subGroupAnnotated sep q).map Prod.fst = subGroupEntry sep q := by
  by_cases h1 : q.2.length = 1
  · simp only [subGroupAnnotated, subGroupEntry, if_pos h1]
    exact map_fst_pair q.2
  · by_cases h2 : q.2.length ≤ 3 <;>
      simp [subGroupAnnotated, subGroupEntry, h1, h2]

theorem topGroupAnnotated_fst (sep : String) (p : String × List String) :
    (topGroupAnnotated sep p).map Prod.fst = topGroupEntry sep p := by
  by_cases h1 : p.2.length = 1
  · simp only [topGroupAnnotated, topGroupEntry, if_pos h1]
    exact map_fst_pair p.2
  · by_cases h2 : p.2.length ≤ 3
    · simp [topGroupAnnotated, topGroupEntry, h1, h2]
    · by_cases h3 : 3 < (pyGroupBy (subKey sep) p.2).length
      · simp [topGroupAnnotated, topGroupEntry, h1, h2, h3]
      · simp only [topGroupAnnotated, topGroupEntry, if_neg h1, if_neg h2, if_neg h3]
        rw [map_flatMapL]
        exact flatMapL_congr (fun q _ => subGroupAnnotated_fst sep q)

theorem subGroupAnnotated_snd (sep : String) (q : String × List String) :
    flatMapL Prod.snd (subGroupAnnotated sep q) = q.2 := by
  by_cases h1 : q.2.length = 1
  · simp only [subGroupAnnotated, if_pos h1]
    rw [flatMapL_map]
    exact flatMapL_pure q.2
  · by_cases h2 : q.2.length ≤ 3 <;>
      simp [subGroupAnnotated, h1, h2, flatMapL]

theorem topGroupAnnotated_snd_perm (sep : String) (p : String × List String) :
    (flatMapL Prod.snd (topGroupAnnotated sep p)).Perm p.2 := by
  by_cases h1 : p.2.length = 1
  · simp only [topGroupAnnotated, if_pos h1]
    rw [flatMapL_map, flatMapL_pure]
  · by_cases h2 : p.2.length ≤ 3
    · simp [topGroupAnnotated, h1, h2, flatMapL]
    · by_cases h3 : 3 < (pyGroupBy (subKey sep) p.2).length
      · simp [topGroupAnnotated, h1, h2, h3, flatMapL]
      · simp only [topGroupAnnotated, if_neg h1, if_neg h2, if_neg h3]
        rw [flatMapL_flatMapL,
          flatMapL_congr (fun q _ => subGroupAnnotated_snd sep q)]
        exact pyGroupBy_snd_perm (subKey sep) p.2

theorem subGroupEntry_length (sep : String) (q : String × List String) :
    (subGroupEntry sep q).length = 1 := by
  by_cases h1 : q.2.length = 1
  · simp [subGroupEntry, h1]
  · by_cases h2 : q.2.length ≤ 3 <;> simp [subGroupEntry, h1, h2]

theorem topGroupEntry_length (sep : String) (p : String × List String) :
    (topGroupEntry sep p).length =
      if p.2.length ≤ 3 then 1
      else if 3 < (pyGroupBy (subKey sep) p.2).length then 1
      else (pyGroupBy (subKey sep) p.2).length := by
  by_cases h1 : p.2.length = 1
  · simp [topGroupEntry, h1]
  · by_cases h2 : p.2.length ≤ 3
    · simp [topGroupEntry, h1, h2]
    · by_cases h3 : 3 < (pyGroupBy (subKey sep) p.2).length
      · simp [topGroupEntry, h1, h2, h3]
      · simp only [topGroupEntry, if_neg h1, if_neg h2, if_neg h3]
        rw [length_flatMapL,
          List.map_congr_left (fun q _ => subGroupEntry_length sep q),
          sum_map_ones]

theorem filter_nil_of_sum_zero (m : String) (L : List (String × List String))
    (h : (L.map (fun p => p.2.count m)).sum = 0) :
    L.filter (fun p => decide (m ∈ p.2)) = [] := by
  induction L with
  | nil => rfl
  | cons p L ih =>
    simp only [List.map_cons, List.sum_cons, Nat.add_eq_zero] at h
    have hnm : m ∉ p.2 := List.count_eq_zero.mp h.1
    simp [List.filter_cons, hnm, ih h.2]

theorem filter_len_one_of_sum_one (m : String) (L : List (String × List String))
    (h : (L.map (fun p => p.2.count m)).sum = 1) :
    (L.filter (fun p => decide (m ∈ p.2))).length = 1 := by
  induction L with
  | nil => simp at h
  | cons p L ih =>
    simp only [List.map_cons, List.sum_cons] at h
    by_cases hm : m ∈ p.2
    · have hpos : 0 < p.2.count m := List.count_pos_iff.mpr hm
      have hz : (L.map (fun p => p.2.count m)).sum = 0 := by omega
      simp [List.filter_cons, hm, filter_nil_of_sum_zero m L hz]
    · have h0 : p.2.count m = 0 := List.count_eq_zero.mpr hm
      rw [h0, Nat.zero_add] at h
      simp [List.filter_cons, hm, ih h]

theorem newline_pair (x : String) : "\n" ++ ("\n" ++ x) = "\n\n" ++ x := by
  rw [← String.append_assoc]
  rfl

/-! Claim theorems. -/

/-- C1: the claim that a subject line matching the fixed template, e.g.
`[fix][1234] mod: msg`, makes the parser return the uppercased type and the
tag digits fails on the code: the pattern does match, with named groups
`fix`, `[1234]` and ` msg` (first conjunct), but `parse_commit_msg` then
raises `AttributeError` at `res.task_id` — attribute access on a plain
`dict` — instead of returning any result (second conjunct). -/
theorem c1_template_match_raises :
    matchCommitTemplate "[fix][1234] mod: msg" = some ⟨"fix", "[1234]", " msg"⟩
    ∧ parse_commit_msg "main" "[fix][1234] mod: msg"
        = PyOutcome.raises "AttributeError" :=
  ⟨rfl, rfl⟩

/-- C2: the claim that a run with zero detected changed modules exits with
status 0 and an untouched file fails on the code: no run of `main` reaches
the `exit(0)` branch at all (first conjunct, over every environment and every
file content), because a parsable subject makes `parse_commit_msg` raise
`AttributeError` first, an unparsable one exits 1, and even past the parser
the call `get_changed_modules(message_head)` raises `TypeError`.  Concretely,
a run with no staged modules dies with `AttributeError`; the file content is
preserved, but by an uncaught exception, not an orderly exit (second
conjunct). -/
theorem c2_exit_zero_unreachable :
    (∀ env content, isExitZero (main_model env content) = false)
    ∧ main_model ⟨"feature-1-x", []⟩ "[fix][1234] mod: msg\nbody"
        = MainOutcome.raises "AttributeError" "[fix][1234] mod: msg\nbody" := by
  constructor
  · intro env content
    unfold main_model
    split
    · rfl
    · split
      · rfl
      · rfl
      · rfl
  · decide

/-- C3: counterexample to the claim that a 2-3 member top-level group is
emitted as the shared prefix followed by the separator and the brace list:
at separator `-`, the group of `a-x, a-y` (shared first token `a`) is emitted
with a literal underscore, not the separator. -/
theorem c3_counterexample :
    group_modules ["a-x", "a-y"] "-" = ["a_\x7ba-x,a-y\x7d"]
    ∧ group_modules ["a-x", "a-y"] "-"
        ≠ ["a" ++ "-" ++ "\x7b" ++ "a-x,a-y" ++ "\x7d"] := by
  constructor
  · decide
  · decide

/-- C3 amended: for every non-empty separator and every top-level group of
2-3 members, the emitted entry is the shared first token followed by a
LITERAL underscore (the source f-string hardcodes `_`, which coincides with
the separator only at the default) and the brace-enclosed comma-join of the
full, unstripped module names; that entry appears in the `group_modules`
output. -/
theorem c3_amended_entry (sep : String) (ms : List String)
    (p : String × List String) (_hsep : sep ≠ "")
    (hp : p ∈ pyGroupBy (topKey sep) ms)
    (h2 : 2 ≤ p.2.length) (h3 : p.2.length ≤ 3) :
    topGroupEntry sep p = [p.1 ++ "_\x7b" ++ joinSep "," p.2 ++ "\x7d"]
    ∧ p.1 ++ "_\x7b" ++ joinSep "," p.2 ++ "\x7d" ∈ group_modules ms sep := by
  have h1 : ¬ p.2.length = 1 := by omega
  have he : topGroupEntry sep p = [p.1 ++ "_\x7b" ++ joinSep "," p.2 ++ "\x7d"] := by
    simp [topGroupEntry, h1, h3]
  refine ⟨he, ?_⟩
  unfold group_modules
  exact mem_flatMapL_of _ hp (by rw [he]; exact List.mem_singleton_self _)

/-- C3 amended, witness at the default separator on modules `a_x, a_y`. -/
theorem c3_amended_entry_witness :
    "a" ++ "_\x7b" ++ joinSep "," ["a_x", "a_y"] ++ "\x7d"
      ∈ group_modules ["a_x", "a_y"] "_" :=
  (c3_amended_entry "_" ["a_x", "a_y"] ("a", ["a_x", "a_y"]) (by decide)
    (by decide) (by decide) (by decide)).2

/-- C4: the claim that subject `[FIX][] foo: bar` with branch
`feature-1234-x` parses with task id `1234` fails on the code: the pattern
fragment `\[\d+\]` demands at least one digit, so the empty tag does not
match and `parse_commit_msg` returns `None` (first conjunct); moreover the
branch fallback helper itself returns group 1 with its surrounding
delimiters, `-1234-`, not the bare digits (second conjunct). -/
theorem c4_empty_tag_returns_none :
    parse_commit_msg "feature-1234-x" "[FIX][] foo: bar" = PyOutcome.returns none
    ∧ get_task_id_from_branch "feature-1234-x" = "-1234-" :=
  ⟨rfl, rfl⟩

/-- C5: counterexample to the claim that the output length of
`group_modules` equals the number of distinct first tokens: the four modules
sharing the single first token `a` split into the two sub-groups `a_b` and
`a_x`, each emitted separately — two output entries for one distinct first
token. -/
theorem c5_counterexample :
    (group_modules ["a_b_1", "a_b_2", "a_x_1", "a_x_2"] "_").length = 2
    ∧ ((["a_b_1", "a_b_2", "a_x_1", "a_x_2"].map (topKey "_")).dedup).length = 1 := by
  constructor
  · decide
  · decide

/-- C5 amended: the output of `group_modules` has one entry per top-level
group EXCEPT that a group of more than three members with at most three
distinct sub-groups contributes one entry per sub-group: the length is the
sum, over the top-level partition, of 1 for a group of at most 3 members,
1 for a collapsed group (more than 3 sub-groups), and the sub-group count
otherwise. -/
theorem c5_amended_length (sep : String) (ms : List String) (_hsep : sep ≠ "") :
    (group_modules ms sep).length =
      ((pyGroupBy (topKey sep) ms).map (fun p =>
        if p.2.length ≤ 3 then 1
        else if 3 < (pyGroupBy (subKey sep) p.2).length then 1
        else (pyGroupBy (subKey sep) p.2).length)).sum := by
  unfold group_modules
  rw [length_flatMapL, List.map_congr_left (fun p _ => topGroupEntry_length sep p)]

/-- C5 amended, witness on the singleton input `a`. -/
theorem c5_amended_length_witness :
    (group_modules ["a"] "_").length =
      ((pyGroupBy (topKey "_") ["a"]).map (fun p =>
        if p.2.length ≤ 3 then 1
        else if 3 < (pyGroupBy (subKey "_") p.2).length then 1
        else (pyGroupBy (subKey "_") p.2).length)).sum :=
  c5_amended_length "_" ["a"] (by decide)

/-- C6: every input module name is accounted for by exactly one output
entry: the entries of `group_modules` are exactly the first components of
the annotated grouping, the concatenation of the accounted names is a
permutation of the input (nothing dropped, nothing duplicated), and for a
duplicate-free input every name lies in the accounted list of exactly one
entry. -/
theorem c6_accounting (sep : String) (ms : List String) (_hsep : sep ≠ "") :
    group_modules ms sep = (gm_annotated ms sep).map Prod.fst
    ∧ (flatMapL Prod.snd (gm_annotated ms sep)).Perm ms
    ∧ (ms.Nodup → ∀ m ∈ ms,
        ((gm_annotated ms sep).filter (fun p => decide (m ∈ p.2))).length = 1) := by
  have hperm : (flatMapL Prod.snd (gm_annotated ms sep)).Perm ms := by
    unfold gm_annotated
    rw [flatMapL_flatMapL]
    exact (perm_flatMapL (fun p _ => topGroupAnnotated_snd_perm sep p)).trans
      (pyGroupBy_snd_perm (topKey sep) ms)
  have hfst : group_modules ms sep = (gm_annotated ms sep).map Prod.fst := by
    unfold group_modules gm_annotated
    rw [map_flatMapL, flatMapL_congr (fun p _ => topGroupAnnotated_fst sep p)]
  refine ⟨hfst, hperm, fun hnd m hm => ?_⟩
  have hc1 : ms.count m = 1 := List.count_eq_one_of_mem hnd hm
  have hc2 := (hperm.count_eq m).trans hc1
  rw [count_flatMapL] at hc2
  exact filter_len_one_of_sum_one m (gm_annotated ms sep) hc2

/-- C6 witness: in the grouping of `a_b, c` the name `a_b` is accounted for
by exactly one entry. -/
theorem c6_accounting_witness :
    ((gm_annotated ["a_b", "c"] "_").filter
      (fun p => decide ("a_b" ∈ p.2))).length = 1 :=
  (c6_accounting "_" ["a_b", "c"] (by decide)).2.2 (by decide) "a_b" (by decide)

/-- C7: counterexample to the claim that the rebuilt message separates the
subject from the verbatim body by exactly one newline: for file content
`A\nB` (body `B`) and subject `H` the script produces `H\n\nB` — two
newlines — not `H\nB`. -/
theorem c7_counterexample :
    rebuilt_message "H" "A\nB" = "H\n\nB"
    ∧ rebuilt_message "H" "A\nB" ≠ "H" ++ "\n" ++ "B" := by
  constructor
  · decide
  · decide

/-- C7 amended: the rebuilt file content is the new subject, exactly TWO
newlines (the f-string newline plus one prepended unconditionally, because
the guard `message_body[:1] != ["\n"]` compares a string to a list and is
always true), then the line-feed join of the remaining input lines (so a
trailing newline of the input is not preserved either). -/
theorem c7_amended (new_head content : String) :
    rebuilt_message new_head content =
      new_head ++ "\n\n" ++ joinSep "\n" ((splitlinesPy content).drop 1) := by
  show new_head ++ "\n" ++ ("\n" ++ message_body_of content) = _
  rw [String.append_assoc, newline_pair, ← String.append_assoc]
  rfl

/-- C8: a top-level group with more than three members spanning more than
three distinct two-token sub-prefixes collapses to the single wildcard entry
formed from the shared first token, the separator and `*`, and that entry
appears in the `group_modules` output. -/
theorem c8_wildcard_collapse (sep : String) (ms : List String)
    (p : String × List String) (_hsep : sep ≠ "")
    (hp : p ∈ pyGroupBy (topKey sep) ms) (h4 : 3 < p.2.length)
    (hsub : 3 < (pyGroupBy (subKey sep) p.2).length) :
    topGroupEntry sep p = [p.1 ++ sep ++ "*"]
    ∧ p.1 ++ sep ++ "*" ∈ group_modules ms sep := by
  have h1 : ¬ p.2.length = 1 := by omega
  have h2 : ¬ p.2.length ≤ 3 := by omega
  have he : topGroupEntry sep p = [p.1 ++ sep ++ "*"] := by
    simp [topGroupEntry, h1, h2, hsub]
  refine ⟨he, ?_⟩
  unfold group_modules
  exact mem_flatMapL_of _ hp (by rw [he]; exact List.mem_singleton_self _)

/-- C8 witness: four modules with four distinct two-token sub-prefixes under
the shared first token `a` collapse to the wildcard `a_*`. -/
theorem c8_wildcard_collapse_witness :
    "a" ++ "_" ++ "*" ∈ group_modules ["a_b", "a_c", "a_d", "a_e"] "_" :=
  (c8_wildcard_collapse "_" ["a_b", "a_c", "a_d", "a_e"]
    ("a", ["a_b", "a_c", "a_d", "a_e"]) (by decide) (by decide) (by decide)
    (by decide)).2

/-- C9: the subject rebuilder's threshold: with 1-3 changed modules the
subject carries the plain comma-join of the module names — `group_modules`
is not applied — and with 4 or more it carries the comma-join of the
`group_modules` output. -/
theorem c9_threshold (parsed : ParsedMsg) (changed : List String) :
    (1 ≤ changed.length → changed.length ≤ 3 →
      build_new_head parsed changed =
        "[" ++ parsed.type ++ "][" ++ parsed.task_id ++ "] " ++
          joinSep ", " changed ++ ": " ++ parsed.msg)
    ∧ (4 ≤ changed.length →
      build_new_head parsed changed =
        "[" ++ parsed.type ++ "][" ++ parsed.task_id ++ "] " ++
          joinSep ", " (group_modules changed "_") ++ ": " ++ parsed.msg) := by
  constructor
  · intro h1 h2
    simp [build_new_head, h2]
  · intro h4
    have h2 : ¬ changed.length ≤ 3 := by omega
    simp [build_new_head, h2]

/-- C9 witness: two changed modules are joined plainly. -/
theorem c9_threshold_witness :
    build_new_head ⟨"FIX", "1234", " msg"⟩ ["a", "b"] = "[FIX][1234] a, b:  msg" := by
  rw [(c9_threshold ⟨"FIX", "1234", " msg"⟩ ["a", "b"]).1 (by decide) (by decide)]
  rfl

/-- C10: the write is the final operation of `main`: every run that ends in
an uncaught exception or an explicit `exit` — the empty-file `IndexError`,
the parser's `AttributeError`, the unparsable-subject `exit(1)`, the
`TypeError` of the bad `get_changed_modules` call, the no-modules `exit(0)`
— leaves the commit-message file holding its input content; only a completed
run carries rewritten content. -/
theorem c10_early_end_preserves_file (env : Env) (content f : String)
    (h : earlyFile (main_model env content) = some f) : f = content := by
  unfold main_model at h
  split at h
  · simp [earlyFile] at h
    exact h.symm
  · split at h
    · simp [earlyFile] at h
      exact h.symm
    · simp [earlyFile] at h
      exact h.symm
    · simp [get_changed_modules_call, earlyFile] at h
      exact h.symm

/-- C10 witness: an unparsable one-line message exits early and the file
keeps its content. -/
theorem c10_early_end_preserves_file_witness : ("x" : String) = "x" :=
  c10_early_end_preserves_file ⟨"b", []⟩ "x" "x" (by decide)
